import Mathlib

/-!
Verification of the Grid Coordinate Resolver of the rodent simulation
repository (`get_maze_coordinates` in `src/dynamic/grid_images.py`,
duplicated verbatim in `src/testing.py`).

The Python function operates on IEEE-754 doubles; the embedding works in
exact rational arithmetic (`ℚ`).  Every constant in the source is a short
decimal literal, hence exactly representable in `ℚ`, and every stated
property concerns values whose decimal expansions are far from the binary
representation error, so the rational model is faithful for all properties
below.  Python's `round(v, 3)` rounds to the nearest multiple of 1/1000
(breaking exact ties of the underlying double to even); `round3` models it
by rounding to the nearest multiple of 1/1000 in `ℚ`.  No property below
depends on the direction of an exact tie.

An out-of-range input raises `ValueError` in the source; the embedding
returns `none`.
-/

namespace RodentSim

/-- Rounding to 3 decimal places, modelling Python `round(v, 3)` in `ℚ`. -/
def round3 (v : ℚ) : ℚ := (round (v * 1000) : ℤ) / 1000

/-- The constant z coordinate, `Z_HEIGHT = 33.577` in the source. -/
def Z_HEIGHT : ℚ := 33.577

/-- Known reference points `(grid_x, grid_y) : (x_inches, y_inches)`,
transcribed from the `reference_points` dictionary in the source. -/
def reference_points : List ((ℤ × ℤ) × (ℚ × ℚ)) :=
  [ ((1, 1), (8.039, 100.98)),
    ((2, 2), (16.336, 92.683)),
    ((6, 2), (55.519, 92.683)),
    ((6, 6), (55.519, 53.50)),
    ((10, 2), (94.702, 92.683)),
    ((11, 1), (102.999, 100.98)),
    ((2, 10), (16.336, 21.973)),
    ((1, 11), (8.039, 6.02)),
    ((11, 11), (102.999, 6.02)) ]

/-- `x_step = (94.702 - 16.336) / 8`, the column step at row `y = 2`. -/
def x_step : ℚ := (94.702 - 16.336) / 8

/-- `y_step = (92.683 - 53.50) / 4`, the row step between rows 2 and 6. -/
def y_step : ℚ := (92.683 - 53.50) / 4

/-- `y_step_lower = (53.50 - 21.973) / 4`, the row step between rows 6 and 10. -/
def y_step_lower : ℚ := (53.50 - 21.973) / 4

/-- The x coordinate computed on the non-reference branch of the source,
before rounding: boundary constants for columns 1 and 11, otherwise the
linear interpolation `16.336 + (grid_x - 2) * x_step`. -/
def x_raw (grid_x : ℤ) : ℚ :=
  if grid_x = 1 then 8.039
  else if grid_x = 11 then 102.999
  else 16.336 + ((grid_x : ℚ) - 2) * x_step

/-- The y coordinate computed on the non-reference branch of the source,
before rounding: boundary constants for rows 1 and 11, otherwise the
two-span piecewise-linear interpolation split at row 6. -/
def y_raw (grid_y : ℤ) : ℚ :=
  if grid_y = 1 then 100.98
  else if grid_y = 11 then 6.02
  else if grid_y ≤ 6 then 92.683 - ((grid_y : ℚ) - 2) * y_step
  else 53.50 - ((grid_y : ℚ) - 6) * y_step_lower

/-- The resolver `get_maze_coordinates(grid_x, grid_y)` of the source.
`none` models the `ValueError` raised for out-of-range input; a reference
cell returns its tabulated pair with `Z_HEIGHT`; every other in-range cell
returns the interpolated coordinates rounded to 3 decimal places. -/
def get_maze_coordinates (grid_x grid_y : ℤ) : Option (ℚ × ℚ × ℚ) :=
  if 0 ≤ grid_x ∧ grid_x ≤ 12 ∧ 0 ≤ grid_y ∧ grid_y ≤ 12 then
    match reference_points.lookup (grid_x, grid_y) with
    | some (x, y) => some (x, y, Z_HEIGHT)
    | none => some (round3 (x_raw grid_x), round3 (y_raw grid_y), Z_HEIGHT)
  else none

/-! ### Evaluation and monotonicity lemmas for `round3` -/

/-- Evaluation rule for `round3`: if `n` is the nearest integer to `q * 1000`
(half rounded up), then `round3 q = n / 1000`. -/
lemma round3_eq_of_bounds (q : ℚ) (n : ℤ) (h1 : (n : ℚ) ≤ q * 1000 + 1 / 2)
    (h2 : q * 1000 + 1 / 2 < n + 1) : round3 q = (n : ℚ) / 1000 := by
  unfold round3
  rw [round_eq, Int.floor_eq_iff.mpr ⟨h1, h2⟩]

/-- A rational with at most 3 decimal places is unchanged by `round3`. -/
lemma round3_eq_self (q : ℚ) (n : ℤ) (h : q * 1000 = (n : ℚ)) : round3 q = q := by
  unfold round3
  rw [h, round_intCast, ← h, mul_div_cancel_right₀ q (by norm_num : (1000 : ℚ) ≠ 0)]

/-- `round3` is monotone. -/
lemma round3_mono {a b : ℚ} (h : a ≤ b) : round3 a ≤ round3 b := by
  unfold round3
  have hr : round (a * 1000) ≤ round (b * 1000) := by
    rw [round_eq, round_eq]
    exact Int.floor_mono (by linarith)
  exact (div_le_div_iff_of_pos_right (by norm_num)).mpr (Int.cast_le.mpr hr)

/-! ### Branch lemmas for the resolver -/

/-- On in-range input, a reference-table hit is returned verbatim. -/
lemma get_eq_of_lookup_some (x y : ℤ) (a b : ℚ)
    (h : 0 ≤ x ∧ x ≤ 12 ∧ 0 ≤ y ∧ y ≤ 12)
    (href : reference_points.lookup (x, y) = some (a, b)) :
    get_maze_coordinates x y = some (a, b, Z_HEIGHT) := by
  unfold get_maze_coordinates
  rw [if_pos h, href]

/-- On in-range input missing from the reference table, the resolver returns
the rounded interpolated coordinates. -/
lemma get_eq_of_lookup_none (x y : ℤ)
    (h : 0 ≤ x ∧ x ≤ 12 ∧ 0 ≤ y ∧ y ≤ 12)
    (href : reference_points.lookup (x, y) = none) :
    get_maze_coordinates x y = some (round3 (x_raw x), round3 (y_raw y), Z_HEIGHT) := by
  unfold get_maze_coordinates
  rw [if_pos h, href]

/-- Fixed and reference x-values are unchanged by `round3` and agree with the
column interpolation where they lie on it. -/
lemma round3_xraw_1 : round3 (x_raw 1) = 8.039 := by
  rw [show x_raw 1 = 8.039 from rfl]
  exact round3_eq_self _ 8039 (by norm_num)

lemma round3_xraw_11 : round3 (x_raw 11) = 102.999 := by
  rw [show x_raw 11 = 102.999 from rfl]
  exact round3_eq_self _ 102999 (by norm_num)

lemma round3_yraw_1 : round3 (y_raw 1) = 100.98 := by
  rw [show y_raw 1 = 100.98 from rfl]
  exact round3_eq_self _ 100980 (by norm_num)

lemma round3_yraw_11 : round3 (y_raw 11) = 6.02 := by
  rw [show y_raw 11 = 6.02 from rfl]
  exact round3_eq_self _ 6020 (by norm_num)

/-- Reference x-values on columns 2, 6, 10 agree with the rounded column
interpolation. -/
lemma round3_xraw_2 : round3 (x_raw 2) = 16.336 := by
  rw [show x_raw 2 = 16.336 from by norm_num [x_raw, x_step]]
  exact round3_eq_self _ 16336 (by norm_num)

lemma round3_xraw_6 : round3 (x_raw 6) = 55.519 := by
  rw [show x_raw 6 = 55.519 from by norm_num [x_raw, x_step]]
  exact round3_eq_self _ 55519 (by norm_num)

lemma round3_xraw_10 : round3 (x_raw 10) = 94.702 := by
  rw [show x_raw 10 = 94.702 from by norm_num [x_raw, x_step]]
  exact round3_eq_self _ 94702 (by norm_num)

/-- For columns 2–10 the returned x-coordinate is always the rounded column
interpolation, whether or not the cell is in the reference table. -/
lemma fst_eq_round3_xraw (x y : ℤ) (hx2 : 2 ≤ x) (hx10 : x ≤ 10)
    (hy2 : 2 ≤ y) (hy10 : y ≤ 10) :
    (get_maze_coordinates x y).map Prod.fst = some (round3 (x_raw x)) := by
  interval_cases x <;> interval_cases y <;>
    first
      | rfl
      | exact congrArg some round3_xraw_2.symm
      | exact congrArg some round3_xraw_6.symm
      | exact congrArg some round3_xraw_10.symm

/-- The raw column interpolation is monotone on columns 2–10. -/
lemma x_raw_mono (x1 x2 : ℤ) (h2 : 2 ≤ x1) (hle : x1 ≤ x2) (h10 : x2 ≤ 10) :
    x_raw x1 ≤ x_raw x2 := by
  unfold x_raw x_step
  rw [if_neg (by omega : x1 ≠ 1), if_neg (by omega : x1 ≠ 11),
    if_neg (by omega : x2 ≠ 1), if_neg (by omega : x2 ≠ 11)]
  have hc : ((x1 : ℚ)) ≤ (x2 : ℚ) := Int.cast_le.mpr hle
  have hs : (0 : ℚ) < (94.702 - 16.336) / 8 := by norm_num
  nlinarith

/-! ### Claims -/

/-- C1: for every grid cell in the Reference Point Table, the resolver returns
exactly the tabulated pair with `Z_HEIGHT = 33.577`, unmodified; in particular
`resolve(6, 6) = (55.519, 53.50, 33.577)` exactly. -/
theorem claim1_reference_table_exact :
    (∀ p ∈ reference_points,
      get_maze_coordinates p.1.1 p.1.2 = some (p.2.1, p.2.2, Z_HEIGHT)) ∧
    get_maze_coordinates 6 6 = some (55.519, 53.50, 33.577) := by
  constructor
  · intro p hp
    simp only [reference_points] at hp
    fin_cases hp <;> rfl
  · rfl

/-- Witness for C1 at the table entry `((1, 1), (8.039, 100.98))`. -/
theorem claim1_witness :
    ((1, 1), (8.039, 100.98)) ∈ reference_points ∧
    get_maze_coordinates 1 1 = some (8.039, 100.98, Z_HEIGHT) :=
  ⟨by simp [reference_points],
   claim1_reference_table_exact.1 ((1, 1), (8.039, 100.98)) (by simp [reference_points])⟩

/-- C2: the resolver fails (with the OutOfRange error, modelled as `none`)
if and only if a coordinate lies outside `[0, 12]`, and produces no partial
result on failure; in particular `resolve(13, 5)` and `resolve(5, -1)` fail. -/
theorem claim2_out_of_range_iff :
    (∀ x y : ℤ,
      get_maze_coordinates x y = none ↔ (x < 0 ∨ 12 < x ∨ y < 0 ∨ 12 < y)) ∧
    get_maze_coordinates 13 5 = none ∧ get_maze_coordinates 5 (-1) = none := by
  refine ⟨fun x y => ?_, rfl, rfl⟩
  by_cases h : 0 ≤ x ∧ x ≤ 12 ∧ 0 ≤ y ∧ y ≤ 12
  · have hs : get_maze_coordinates x y ≠ none := by
      cases href : reference_points.lookup (x, y) with
      | some v =>
        rw [get_eq_of_lookup_some x y v.1 v.2 h (by rw [href])]
        simp
      | none =>
        rw [get_eq_of_lookup_none x y h href]
        simp
    constructor
    · intro he
      exact absurd he hs
    · intro hd
      exfalso
      omega
  · unfold get_maze_coordinates
    rw [if_neg h]
    simp only [iff_true_intro rfl, true_iff]
    omega

/-- C6: for every in-range cell, the third returned component is exactly the
constant `Z_HEIGHT = 33.577`, on both the reference branch and the
interpolation branch. -/
theorem claim6_z_constant (x y : ℤ) (hx0 : 0 ≤ x) (hx12 : x ≤ 12)
    (hy0 : 0 ≤ y) (hy12 : y ≤ 12) :
    (get_maze_coordinates x y).map (fun r => r.2.2) = some 33.577 ∧
    Z_HEIGHT = 33.577 := by
  refine ⟨?_, rfl⟩
  cases href : reference_points.lookup (x, y) with
  | some v =>
    rw [get_eq_of_lookup_some x y v.1 v.2 ⟨hx0, hx12, hy0, hy12⟩ (by rw [href])]
    rfl
  | none =>
    rw [get_eq_of_lookup_none x y ⟨hx0, hx12, hy0, hy12⟩ href]
    rfl

/-- Witness for C6 at the non-reference cell `(4, 7)`. -/
theorem claim6_witness :
    (0 : ℤ) ≤ 4 ∧ (4 : ℤ) ≤ 12 ∧ (0 : ℤ) ≤ 7 ∧ (7 : ℤ) ≤ 12 ∧
    ((get_maze_coordinates 4 7).map (fun r => r.2.2) = some 33.577 ∧
      Z_HEIGHT = 33.577) :=
  ⟨by decide, by decide, by decide, by decide,
   claim6_z_constant 4 7 (by decide) (by decide) (by decide) (by decide)⟩

/-- C8: the non-reference cell `(10, 6)` lies exactly on both interpolation
span endpoints: the column step is `9.79575`, `x = 16.336 + 8 * 9.79575 =
94.702` and `y = 53.50` (the row-6 reference value), returned with
`Z_HEIGHT`. -/
theorem claim8_span_endpoint_exact :
    reference_points.lookup (10, 6) = none ∧
    x_step = 9.79575 ∧
    x_raw 10 = 16.336 + 8 * 9.79575 ∧
    y_raw 6 = 92.683 - 4 * ((92.683 - 53.50) / 4) ∧
    get_maze_coordinates 10 6 = some (94.702, 53.50, Z_HEIGHT) := by
  refine ⟨rfl, by norm_num [x_step], by norm_num [x_raw, x_step],
    by norm_num [y_raw, y_step], ?_⟩
  have hx : x_raw 10 = 94.702 := by norm_num [x_raw, x_step]
  have hy : y_raw 6 = 53.50 := by norm_num [y_raw, y_step]
  rw [get_eq_of_lookup_none 10 6 (by omega) rfl, hx, hy,
    round3_eq_self _ 94702 (by norm_num), round3_eq_self _ 53500 (by norm_num)]

/-- C3: for every in-range non-reference cell with `x ∉ {1, 11}`, the returned
x-coordinate is the column interpolation `16.336 + (x - 2) * (94.702 - 16.336)
/ 8` rounded to 3 decimal places, independent of `y`. -/
theorem claim3_column_interpolation (x y : ℤ) (hx0 : 0 ≤ x) (hx12 : x ≤ 12)
    (hy0 : 0 ≤ y) (hy12 : y ≤ 12)
    (href : reference_points.lookup (x, y) = none) (h1 : x ≠ 1) (h11 : x ≠ 11) :
    (get_maze_coordinates x y).map Prod.fst =
      some (round3 (16.336 + ((x : ℚ) - 2) * ((94.702 - 16.336) / 8))) := by
  rw [get_eq_of_lookup_none x y ⟨hx0, hx12, hy0, hy12⟩ href]
  exact congrArg (fun q => some (round3 q))
    (by unfold x_raw x_step; rw [if_neg h1, if_neg h11])

/-- Witness for C3 at the non-reference cell `(3, 5)`. -/
theorem claim3_witness :
    reference_points.lookup (3, 5) = none ∧ (3 : ℤ) ≠ 1 ∧ (3 : ℤ) ≠ 11 ∧
    (get_maze_coordinates 3 5).map Prod.fst =
      some (round3 (16.336 + (((3 : ℤ) : ℚ) - 2) * ((94.702 - 16.336) / 8))) :=
  ⟨rfl, by decide, by decide,
   claim3_column_interpolation 3 5 (by decide) (by decide) (by decide) (by decide)
     rfl (by decide) (by decide)⟩

/-- C4: for every in-range non-reference cell with `y ∉ {1, 11}`, the returned
y-coordinate follows the two-span piecewise-linear scheme split at row 6,
rounded to 3 decimal places. -/
theorem claim4_row_interpolation (x y : ℤ) (hx0 : 0 ≤ x) (hx12 : x ≤ 12)
    (hy0 : 0 ≤ y) (hy12 : y ≤ 12)
    (href : reference_points.lookup (x, y) = none) (hy1 : y ≠ 1) (hy11 : y ≠ 11) :
    (2 ≤ y ∧ y ≤ 6 →
      (get_maze_coordinates x y).map (fun r => r.2.1) =
        some (round3 (92.683 - ((y : ℚ) - 2) * ((92.683 - 53.50) / 4)))) ∧
    (6 < y ∧ y ≤ 10 →
      (get_maze_coordinates x y).map (fun r => r.2.1) =
        some (round3 (53.50 - ((y : ℚ) - 6) * ((53.50 - 21.973) / 4)))) := by
  rw [get_eq_of_lookup_none x y ⟨hx0, hx12, hy0, hy12⟩ href]
  constructor
  · rintro ⟨h2, h6⟩
    exact congrArg (fun q => some (round3 q))
      (by unfold y_raw y_step; rw [if_neg hy1, if_neg hy11, if_pos h6])
  · rintro ⟨h6, h10⟩
    exact congrArg (fun q => some (round3 q))
      (by unfold y_raw y_step_lower
          rw [if_neg hy1, if_neg hy11, if_neg (by omega : ¬ y ≤ 6)])

/-- Witness for C4 at the non-reference cell `(4, 8)` (lower span). -/
theorem claim4_witness :
    reference_points.lookup (4, 8) = none ∧ (4 : ℤ) ≠ 1 ∧ (8 : ℤ) ≠ 11 ∧
    ((6 : ℤ) < 8 ∧ (8 : ℤ) ≤ 10) ∧
    (get_maze_coordinates 4 8).map (fun r => r.2.1) =
      some (round3 (53.50 - (((8 : ℤ) : ℚ) - 6) * ((53.50 - 21.973) / 4))) :=
  ⟨rfl, by decide, by decide, by decide,
   (claim4_row_interpolation 4 8 (by decide) (by decide) (by decide) (by decide)
     rfl (by decide) (by decide)).2 (by decide)⟩

/-- C5: boundary landmark columns and rows are fixed constants independent of
the other coordinate: column 1 gives x = 8.039, column 11 gives x = 102.999,
row 1 gives y = 100.98, row 11 gives y = 6.02, for every valid value of the
other coordinate. -/
theorem claim5_boundary_constants :
    (∀ y : ℤ, 0 ≤ y → y ≤ 12 →
      (get_maze_coordinates 1 y).map Prod.fst = some 8.039 ∧
      (get_maze_coordinates 11 y).map Prod.fst = some 102.999) ∧
    (∀ x : ℤ, 0 ≤ x → x ≤ 12 →
      (get_maze_coordinates x 1).map (fun r => r.2.1) = some 100.98 ∧
      (get_maze_coordinates x 11).map (fun r => r.2.1) = some 6.02) := by
  constructor
  · intro y h0 h12
    interval_cases y <;>
      exact ⟨by first | rfl | exact congrArg some round3_xraw_1,
             by first | rfl | exact congrArg some round3_xraw_11⟩
  · intro x h0 h12
    interval_cases x <;>
      exact ⟨by first | rfl | exact congrArg some round3_yraw_1,
             by first | rfl | exact congrArg some round3_yraw_11⟩

/-- Witness for C5 at `y = 5` and `x = 5`. -/
theorem claim5_witness :
    ((0 : ℤ) ≤ 5 ∧ (5 : ℤ) ≤ 12) ∧
    ((get_maze_coordinates 1 5).map Prod.fst = some 8.039 ∧
      (get_maze_coordinates 11 5).map Prod.fst = some 102.999) ∧
    ((get_maze_coordinates 5 1).map (fun r => r.2.1) = some 100.98 ∧
      (get_maze_coordinates 5 11).map (fun r => r.2.1) = some 6.02) :=
  ⟨⟨by decide, by decide⟩,
   claim5_boundary_constants.1 5 (by decide) (by decide),
   claim5_boundary_constants.2 5 (by decide) (by decide)⟩

/-- C9: on the non-reference branch both returned coordinates are the
`round3` images of the computed values, and the fixed boundary constants,
having at most 3 decimal places, reach the caller with their full tabulated
value unchanged. -/
theorem claim9_rounding_discipline (x y : ℤ) (hx0 : 0 ≤ x) (hx12 : x ≤ 12)
    (hy0 : 0 ≤ y) (hy12 : y ≤ 12)
    (href : reference_points.lookup (x, y) = none) :
    get_maze_coordinates x y =
      some (round3 (x_raw x), round3 (y_raw y), Z_HEIGHT) ∧
    (x = 1 → round3 (x_raw x) = 8.039) ∧
    (x = 11 → round3 (x_raw x) = 102.999) ∧
    (y = 1 → round3 (y_raw y) = 100.98) ∧
    (y = 11 → round3 (y_raw y) = 6.02) := by
  refine ⟨get_eq_of_lookup_none x y ⟨hx0, hx12, hy0, hy12⟩ href, ?_, ?_, ?_, ?_⟩
  · rintro rfl
    exact round3_xraw_1
  · rintro rfl
    exact round3_xraw_11
  · rintro rfl
    exact round3_yraw_1
  · rintro rfl
    exact round3_yraw_11

/-- Witness for C9 at the non-reference cell `(1, 5)`: the tabulated constant
8.039 reaches the caller unchanged. -/
theorem claim9_witness :
    reference_points.lookup (1, 5) = none ∧
    (get_maze_coordinates 1 5 =
      some (round3 (x_raw 1), round3 (y_raw 5), Z_HEIGHT) ∧
    ((1 : ℤ) = 1 → round3 (x_raw 1) = 8.039) ∧
    ((1 : ℤ) = 11 → round3 (x_raw 1) = 102.999) ∧
    ((5 : ℤ) = 1 → round3 (y_raw 5) = 100.98) ∧
    ((5 : ℤ) = 11 → round3 (y_raw 5) = 6.02)) :=
  ⟨rfl, claim9_rounding_discipline 1 5 (by decide) (by decide) (by decide)
    (by decide) rfl⟩

/-- C7: for every fixed row `y` in `[2, 10]`, the returned x-coordinate is
non-decreasing as the column increases from 2 to 10, including across
reference-table cells. -/
theorem claim7_x_monotone (y x1 x2 : ℤ) (hy2 : 2 ≤ y) (hy10 : y ≤ 10)
    (h2 : 2 ≤ x1) (hle : x1 ≤ x2) (h10 : x2 ≤ 10) (a b : ℚ)
    (ha : (get_maze_coordinates x1 y).map Prod.fst = some a)
    (hb : (get_maze_coordinates x2 y).map Prod.fst = some b) : a ≤ b := by
  have ha' := fst_eq_round3_xraw x1 y h2 (by omega) hy2 hy10
  have hb' := fst_eq_round3_xraw x2 y (by omega) h10 hy2 hy10
  obtain rfl : a = round3 (x_raw x1) := Option.some.inj (ha.symm.trans ha')
  obtain rfl : b = round3 (x_raw x2) := Option.some.inj (hb.symm.trans hb')
  exact round3_mono (x_raw_mono x1 x2 h2 hle h10)

/-- Witness for C7 at row 3, columns 4 and 9. -/
theorem claim7_witness :
    (get_maze_coordinates 4 3).map Prod.fst = some (round3 (x_raw 4)) ∧
    (get_maze_coordinates 9 3).map Prod.fst = some (round3 (x_raw 9)) ∧
    round3 (x_raw 4) ≤ round3 (x_raw 9) :=
  ⟨rfl, rfl,
   claim7_x_monotone 3 4 9 (by decide) (by decide) (by decide) (by decide)
     (by decide) _ _ rfl rfl⟩

/-- C10: rows and columns 0 and 12 are accepted and handled by extrapolating
the same closed-form lines: every in-range cell succeeds, columns 0 and 12 use
the column formula, row 0 uses the upper-span row formula and row 12 the
lower-span row formula. -/
theorem claim10_edge_extrapolation :
    (∀ x y : ℤ, 0 ≤ x → x ≤ 12 → 0 ≤ y → y ≤ 12 →
      (get_maze_coordinates x y).isSome = true) ∧
    (∀ y : ℤ, 0 ≤ y → y ≤ 12 →
      (get_maze_coordinates 0 y).map Prod.fst =
        some (round3 (16.336 + ((0 : ℚ) - 2) * 9.79575)) ∧
      (get_maze_coordinates 12 y).map Prod.fst =
        some (round3 (16.336 + ((12 : ℚ) - 2) * 9.79575))) ∧
    (∀ x : ℤ, 0 ≤ x → x ≤ 12 →
      (get_maze_coordinates x 0).map (fun r => r.2.1) =
        some (round3 (92.683 - ((0 : ℚ) - 2) * 9.79575)) ∧
      (get_maze_coordinates x 12).map (fun r => r.2.1) =
        some (round3 (53.50 - ((12 : ℚ) - 6) * 7.88175))) := by
  refine ⟨fun x y h0 h12 h0' h12' => ?_, fun y h0 h12 => ?_, fun x h0 h12 => ?_⟩
  · cases href : reference_points.lookup (x, y) with
    | some v =>
      rw [get_eq_of_lookup_some x y v.1 v.2 ⟨h0, h12, h0', h12'⟩ (by rw [href])]
      rfl
    | none =>
      rw [get_eq_of_lookup_none x y ⟨h0, h12, h0', h12'⟩ href]
      rfl
  · constructor <;> (interval_cases y <;>
      refine congrArg (fun q => some (round3 q)) ?_ <;> norm_num [x_raw, x_step])
  · constructor <;> (interval_cases x <;>
      refine congrArg (fun q => some (round3 q)) ?_ <;>
        norm_num [y_raw, y_step, y_step_lower])

/-- Witness for C10 at `(0, 5)`, `(3, 0)` and `(3, 12)`. -/
theorem claim10_witness :
    (get_maze_coordinates 0 5).isSome = true ∧
    (get_maze_coordinates 0 5).map Prod.fst =
      some (round3 (16.336 + ((0 : ℚ) - 2) * 9.79575)) ∧
    (get_maze_coordinates 3 0).map (fun r => r.2.1) =
      some (round3 (92.683 - ((0 : ℚ) - 2) * 9.79575)) ∧
    (get_maze_coordinates 3 12).map (fun r => r.2.1) =
      some (round3 (53.50 - ((12 : ℚ) - 6) * 7.88175)) :=
  ⟨claim10_edge_extrapolation.1 0 5 (by decide) (by decide) (by decide) (by decide),
   (claim10_edge_extrapolation.2.1 5 (by decide) (by decide)).1,
   (claim10_edge_extrapolation.2.2 3 (by decide) (by decide)).1,
   (claim10_edge_extrapolation.2.2 3 (by decide) (by decide)).2⟩

end RodentSim
